import Mathlib

/-!
Verification of `quickAnalysis.py` from LATAnalysisScripts.

The module drives external Fermi LAT tools (gtselect, gtmktime, gtltcube,
gtexpmap, gtbin, gtexpcube2, gtsrcmaps) by filling in shared parameter
dictionaries (the `gt_apps` objects `filter`, `maketime`, `expCube`,
`expMap`, `evtbin`, `srcMaps`) and invoking the tools.  We embed the
dictionaries as association lists of string keys and scalar values, and
each method of the `quickAnalysis` class as a function from the shared
dictionary state to a new state together with a trace of observable
events (log lines, file-existence checks, external-tool invocations).
-/

/-- A scalar parameter value: Python strings, ints, floats (modelled as
rationals, since only literal constants and sums of them occur) and bools. -/
inductive Val where
  | s (x : String)
  | i (x : Int)
  | q (x : ℚ)
  | b (x : Bool)
deriving DecidableEq

/-- A parameter dictionary: an association list of string keys, first
binding wins, insertion preserves the position of an existing key
(like a Python dict update). -/
abbrev Dict := List (String × Val)

namespace Dict

/-- Look up a key. -/
def get : Dict → String → Option Val
  | [], _ => none
  | (k', v) :: rest, k => if k' = k then some v else get rest k

/-- `d[k] = v`: replace the value at an existing key in place, or append. -/
def set : Dict → String → Val → Dict
  | [], k, v => [(k, v)]
  | (k', v') :: rest, k, v =>
    if k' = k then (k, v) :: rest else (k', v') :: set rest k v

/-- Look up a key, defaulting to the empty string (the Python code would
raise `KeyError`; every use is guarded by `checkConfig`). -/
def getV (d : Dict) (k : String) : Val := (d.get k).getD (Val.s "")

/-- Look up a key expected to hold a string (used for `base`). -/
def getS (d : Dict) (k : String) : String :=
  match d.get k with
  | some (Val.s x) => x
  | _ => ""

end Dict

/-- Python truthiness of a value, as in `if(self.commonConf['binned']):`. -/
def Val.truthy : Val → Bool
  | .s x => x ≠ ""
  | .i n => n ≠ 0
  | .q x => x ≠ 0
  | .b x => x

/-- Python `float(...)` applied to a configuration value, as in
`float(self.analysisConf['rad'])`.  Numeric strings would be parsed by
Python; we only instantiate this at numeric values. -/
def Val.toQ : Val → ℚ
  | .s _ => 0
  | .i n => (n : ℚ)
  | .q x => x
  | .b x => if x then 1 else 0

/-- Which files exist in the working directory. -/
abbrev FS := String → Bool

/-- Observable events of a run: log lines, file-existence checks, and
invocations of the external tools (via a GtApp's `run`, or `os.system`
for gtexpcube2, which the source drives through a hand-built command
string; we record the parameters that string is built from). -/
inductive Event where
  | logInfo (msg : String)
  | logCritical (msg : String)
  | checkFiles (files : List String)
  | runTool (tool : String) (params : Dict)
  | printTool (tool : String) (params : Dict)
  | runSystem (tool : String) (args : Dict)
  | printSystem (tool : String) (args : Dict)
  | makeModel (base : String)
deriving DecidableEq

/-- The external tool invoked by an event, if any. -/
def Event.toolOf : Event → Option String
  | .runTool t _ => some t
  | .runSystem t _ => some t
  | _ => none

/-- The sequence of external tools a trace invokes. -/
def toolSeq (es : List Event) : List String := es.filterMap Event.toolOf

/-- The shared `gt_apps` parameter dictionaries mutated by the methods. -/
structure Apps where
  filter : Dict
  maketime : Dict
  expCube : Dict
  expMap : Dict
  evtbin : Dict
  srcMaps : Dict
deriving DecidableEq

/-- The two configuration dictionaries held by a fully constructed
`quickAnalysis` object. -/
structure QA where
  commonConf : Dict
  analysisConf : Dict
deriving DecidableEq

/-- Default `analysisConfig` of `quickAnalysis.__init__`. -/
def analysisConfigDefault : Dict :=
  [("ra", Val.i 0), ("dec", Val.i 0), ("rad", Val.i 10),
   ("tmin", Val.s "INDEF"), ("tmax", Val.s "INDEF"),
   ("emin", Val.i 100), ("emax", Val.i 300000), ("zmax", Val.i 100)]

/-- Default `commonConfig` of `quickAnalysis.__init__`. -/
def commonConfigDefault : Dict :=
  [("base", Val.s "MySource"), ("binned", Val.b false),
   ("eventclass", Val.i 2), ("irfs", Val.s "P7SOURCE_V6"),
   ("verbosity", Val.i 0)]

/-- Modelled from the spec: `quickUtils.runCommand` (quickUtils.py is not
under src/) runs the GtApp whose parameters are in the dictionary when
`run` is true, and otherwise prints the command it would run. -/
def runCommand (tool : String) (d : Dict) (run : Bool) : List Event :=
  if run then [Event.runTool tool d] else [Event.printTool tool d]

/-- Modelled from the spec: `quickUtils.checkForFiles` (quickUtils.py is
not under src/) raises `FileNotFound` when any of the listed files does
not exist; this predicate is true when all of them exist. -/
def checkForFiles (fs : FS) (files : List String) : Bool := files.all fs

/-- Modelled from the spec: `quickUtils.NumberOfPixels` (quickUtils.py is
not under src/).  Per the docstrings in quickAnalysis.py it returns the
pixel count of the largest square subtended by the ROI, flooring the
calculated value; we take the side of the inscribed square, `r·√2`,
divided by the bin size, with `√2 ≈ 14142/10000`.  No claim depends on
the value, only on which dictionary keys receive it. -/
def NumberOfPixels (radius binSize : ℚ) : Int :=
  ⌊radius * (14142 / 10000) / binSize⌋

namespace quickAnalysis

/-- `runSelect`: fills the `filter` (gtselect) dictionary from the
configuration and the `convtype` argument (default -1) and invokes
gtselect. -/
def runSelect (qa : QA) (st : Apps) (run : Bool) (convtype : Int := -1) :
    Apps × List Event :=
  let b := qa.commonConf.getS "base"
  let f := st.filter
  let f := f.set "rad" (qa.analysisConf.getV "rad")
  let f := f.set "evclass" (qa.commonConf.getV "eventclass")
  let f := f.set "infile" (Val.s ("@" ++ b ++ ".list"))
  let f := f.set "outfile" (Val.s (b ++ "_filtered.fits"))
  let f := f.set "ra" (qa.analysisConf.getV "ra")
  let f := f.set "dec" (qa.analysisConf.getV "dec")
  let f := f.set "tmin" (qa.analysisConf.getV "tmin")
  let f := f.set "tmax" (qa.analysisConf.getV "tmax")
  let f := f.set "emin" (qa.analysisConf.getV "emin")
  let f := f.set "emax" (qa.analysisConf.getV "emax")
  let f := f.set "zmax" (qa.analysisConf.getV "zmax")
  let f := f.set "convtype" (Val.i convtype)
  ({ st with filter := f }, runCommand "gtselect" f run)

/-- Default `filterString` argument of `runGTI`. -/
def gtiFilterDefault : String := "DATA_QUAL==1 && LAT_CONFIG==1 && ABS(ROCK_ANGLE)<52"

/-- `runGTI`: fills the `maketime` (gtmktime) dictionary and invokes
gtmktime. -/
def runGTI (qa : QA) (st : Apps) (run : Bool)
    (filterString : String := gtiFilterDefault) (roi : String := "yes") :
    Apps × List Event :=
  let b := qa.commonConf.getS "base"
  let m := st.maketime
  let m := m.set "scfile" (Val.s (b ++ "_SC.fits"))
  let m := m.set "filter" (Val.s filterString)
  let m := m.set "roicut" (Val.s roi)
  let m := m.set "evfile" (Val.s (b ++ "_filtered.fits"))
  let m := m.set "outfile" (Val.s (b ++ "_filtered_gti.fits"))
  ({ st with maketime := m }, runCommand "gtmktime" m run)

/-- `runLTCube`: fills the `expCube` (gtltcube) dictionary, with the
fixed values `dcostheta = 0.025` and `binsz = 1`, and invokes gtltcube. -/
def runLTCube (qa : QA) (st : Apps) (run : Bool) (zmax : Int := 180) :
    Apps × List Event :=
  let b := qa.commonConf.getS "base"
  let e := st.expCube
  let e := e.set "evfile" (Val.s (b ++ "_filtered_gti.fits"))
  let e := e.set "scfile" (Val.s (b ++ "_SC.fits"))
  let e := e.set "outfile" (Val.s (b ++ "_ltcube.fits"))
  let e := e.set "dcostheta" (Val.q (25 / 1000))
  let e := e.set "binsz" (Val.i 1)
  let e := e.set "zmax" (Val.i zmax)
  ({ st with expCube := e }, runCommand "gtltcube" e run)

/-- `runExpMap`: fills the `expMap` (gtexpmap) dictionary, with
`srcrad = float(rad) + 10.` and fixed pixel/energy counts, and invokes
gtexpmap. -/
def runExpMap (qa : QA) (st : Apps) (run : Bool) : Apps × List Event :=
  let b := qa.commonConf.getS "base"
  let e := st.expMap
  let e := e.set "evfile" (Val.s (b ++ "_filtered_gti.fits"))
  let e := e.set "scfile" (Val.s (b ++ "_SC.fits"))
  let e := e.set "expcube" (Val.s (b ++ "_ltcube.fits"))
  let e := e.set "outfile" (Val.s (b ++ "_expMap.fits"))
  let e := e.set "irfs" (qa.commonConf.getV "irfs")
  let e := e.set "srcrad" (Val.q ((qa.analysisConf.getV "rad").toQ + 10))
  let e := e.set "nlong" (Val.i 120)
  let e := e.set "nlat" (Val.i 120)
  let e := e.set "nenergies" (Val.i 20)
  ({ st with expMap := e }, runCommand "gtexpmap" e run)

/-- `runCCUBE`: fills the shared `evtbin` (gtbin) dictionary for a counts
cube, including the energy-binning keys, and invokes gtbin. -/
def runCCUBE (qa : QA) (st : Apps) (run : Bool)
    (bin_size : ℚ := 1 / 10) (nbins : Int := 30) : Apps × List Event :=
  let b := qa.commonConf.getS "base"
  let npix := NumberOfPixels (qa.analysisConf.getV "rad").toQ bin_size
  let e := st.evtbin
  let e := e.set "evfile" (Val.s (b ++ "_filtered_gti.fits"))
  let e := e.set "outfile" (Val.s (b ++ "_CCUBE.fits"))
  let e := e.set "algorithm" (Val.s "CCUBE")
  let e := e.set "nxpix" (Val.i npix)
  let e := e.set "nypix" (Val.i npix)
  let e := e.set "binsz" (Val.q bin_size)
  let e := e.set "coordsys" (Val.s "CEL")
  let e := e.set "xref" (qa.analysisConf.getV "ra")
  let e := e.set "yref" (qa.analysisConf.getV "dec")
  let e := e.set "axisrot" (Val.i 0)
  let e := e.set "proj" (Val.s "AIT")
  let e := e.set "ebinalg" (Val.s "LOG")
  let e := e.set "emin" (qa.analysisConf.getV "emin")
  let e := e.set "emax" (qa.analysisConf.getV "emax")
  let e := e.set "enumbins" (Val.i nbins)
  ({ st with evtbin := e }, runCommand "gtbin" e run)

/-- `runCMAP`: fills the shared `evtbin` (gtbin) dictionary for a counts
map — it does not touch the energy-binning keys — and invokes gtbin. -/
def runCMAP (qa : QA) (st : Apps) (run : Bool) (bin_size : ℚ := 1 / 10) :
    Apps × List Event :=
  let b := qa.commonConf.getS "base"
  let npix := NumberOfPixels (qa.analysisConf.getV "rad").toQ bin_size
  let e := st.evtbin
  let e := e.set "evfile" (Val.s (b ++ "_filtered_gti.fits"))
  let e := e.set "outfile" (Val.s (b ++ "_CMAP.fits"))
  let e := e.set "algorithm" (Val.s "CMAP")
  let e := e.set "nxpix" (Val.i npix)
  let e := e.set "nypix" (Val.i npix)
  let e := e.set "binsz" (Val.q bin_size)
  let e := e.set "coordsys" (Val.s "CEL")
  let e := e.set "xref" (qa.analysisConf.getV "ra")
  let e := e.set "yref" (qa.analysisConf.getV "dec")
  let e := e.set "axisrot" (Val.i 0)
  let e := e.set "proj" (Val.s "AIT")
  ({ st with evtbin := e }, runCommand "gtbin" e run)

/-- The gtexpcube2 parameters `runExpCube` builds its command line
from.  The source stringifies the numeric values into the command
string; we record the parameters the string is built from. -/
def expCubeArgs (qa : QA) (bin_size : ℚ) (nbins : Int) : Dict :=
  let b := qa.commonConf.getS "base"
  let npix := NumberOfPixels (qa.analysisConf.getV "rad").toQ bin_size
  [("infile", Val.s (b ++ "_ltcube.fits")),
     ("cmap", Val.s "none"),
     ("outfile", Val.s (b ++ "_BinnedExpMap.fits")),
     ("irfs", qa.commonConf.getV "irfs"),
     ("xref", qa.analysisConf.getV "ra"),
     ("yref", qa.analysisConf.getV "dec"),
     ("nxpix", Val.i npix),
     ("nypix", Val.i npix),
     ("binsz", Val.q bin_size),
     ("coordsys", Val.s "CEL"),
     ("axisrot", Val.i 0),
     ("proj", Val.s "AIT"),
     ("ebinalg", Val.s "LOG"),
     ("emin", qa.analysisConf.getV "emin"),
     ("emax", qa.analysisConf.getV "emax"),
     ("enumbins", Val.i nbins)]

/-- `runExpCube`: builds a gtexpcube2 command line by string
concatenation and either runs it through `os.system` (and logs it) or
prints it.  None of the shared dictionaries is touched. -/
def runExpCube (qa : QA) (st : Apps) (run : Bool)
    (bin_size : ℚ := 1 / 10) (nbins : Int := 30) : Apps × List Event :=
  if run then (st, [Event.runSystem "gtexpcube2" (expCubeArgs qa bin_size nbins)])
  else (st, [Event.printSystem "gtexpcube2" (expCubeArgs qa bin_size nbins)])

/-- The `generateXMLmodel` method: calls `quickUtils.generateXMLmodel`
(quickUtils.py is not under src/; modelled from the spec: it builds an
XML model of the region from the 2FGL catalog, raising `FileNotFound`
when the catalog or diffuse-model files are missing — its success is
the oracle `xmlOk`), catching `FileNotFound` with a critical log line.
It touches none of the shared dictionaries. -/
def generateXMLmodelM (xmlOk : Bool) (base : String) : List Event :=
  if xmlOk then [Event.makeModel base]
  else [Event.logCritical "One or more needed files do not exist"]

/-- `runSrcMaps`: ensures an XML model, checks the four required input
files, and only if all exist fills the `srcMaps` (gtsrcmaps) dictionary
and invokes gtsrcmaps; otherwise logs critically and returns. -/
def runSrcMaps (fs : FS) (xmlOk : Bool) (qa : QA) (st : Apps)
    (run : Bool) : Apps × List Event :=
  let b := qa.commonConf.getS "base"
  let ev := generateXMLmodelM xmlOk b
  let files := [b ++ "_CCUBE.fits", b ++ "_ltcube.fits",
                b ++ "_BinnedExpMap.fits", b ++ "_SC.fits"]
  if checkForFiles fs files then
    let d := st.srcMaps
    let d := d.set "scfile" (Val.s (b ++ "_SC.fits"))
    let d := d.set "expcube" (Val.s (b ++ "_ltcube.fits"))
    let d := d.set "cmap" (Val.s (b ++ "_CCUBE.fits"))
    let d := d.set "srcmdl" (Val.s (b ++ "_model.xml"))
    let d := d.set "bexpmap" (Val.s (b ++ "_BinnedExpMap.fits"))
    let d := d.set "outfile" (Val.s (b ++ "_srcMaps.fits"))
    let d := d.set "irfs" (qa.commonConf.getV "irfs")
    let d := d.set "rfactor" (Val.i 4)
    let d := d.set "emapbnds" (Val.s "no")
    ({ st with srcMaps := d },
     ev ++ [Event.checkFiles files] ++ runCommand "gtsrcmaps" d run)
  else
    (st, ev ++ [Event.checkFiles files,
                Event.logCritical "One or more needed files do not exist"])

/-- `runAll`: checks `<base>.list` and `<base>_SC.fits`, then runs
gtselect, gtmktime, gtltcube, and then either the binned chain
(runCCUBE, runExpCube, runSrcMaps) or runExpMap, with the log lines of
the source interleaved. -/
def runAll (fs : FS) (xmlOk : Bool) (qa : QA) (st : Apps) (run : Bool) :
    Apps × List Event :=
  let b := qa.commonConf.getS "base"
  let files := [b ++ ".list", b ++ "_SC.fits"]
  if checkForFiles fs files then
    let (st1, e1) := runSelect qa st run
    let (st2, e2) := runGTI qa st1 run
    let (st3, e3) := runLTCube qa st2 run
    if (qa.commonConf.getV "binned").truthy then
      let (st4, e4) := runCCUBE qa st3 run
      let (st5, e5) := runExpCube qa st4 run
      let (st6, e6) := runSrcMaps fs xmlOk qa st5 run
      (st6, [Event.logInfo "***Checking for files***", Event.checkFiles files,
             Event.logInfo "***Running gtselect***"] ++ e1 ++
            [Event.logInfo "***Running gtmktime***"] ++ e2 ++
            [Event.logInfo "***Running gtltcube***"] ++ e3 ++
            [Event.logInfo "***Running gtbin***"] ++ e4 ++
            [Event.logInfo "***Running gtexpcube2***"] ++ e5 ++
            [Event.logInfo "***Running gtsrcMaps***"] ++ e6)
    else
      let (st4, e4) := runExpMap qa st3 run
      (st4, [Event.logInfo "***Checking for files***", Event.checkFiles files,
             Event.logInfo "***Running gtselect***"] ++ e1 ++
            [Event.logInfo "***Running gtmktime***"] ++ e2 ++
            [Event.logInfo "***Running gtltcube***"] ++ e3 ++
            [Event.logInfo "***Running gtexpmap***"] ++ e4)
  else
    (st, [Event.logInfo "***Checking for files***", Event.checkFiles files,
          Event.logCritical "One or more needed files do not exist"])

end quickAnalysis

/-- Modelled from the spec: `quickUtils.checkConfig` (quickUtils.py is
not under src/) verifies that every option of the reference dictionary
is present in the dictionary read from the config file, raising
`KeyError` otherwise, and returns the configuration with the values
read from the file. -/
def checkConfig (ref given : Dict) : Except Unit Dict :=
  if ref.all (fun p => (given.get p.1).isSome) then
    .ok (ref.map (fun p => (p.1, (given.get p.1).getD p.2)))
  else .error ()

namespace quickAnalysis

/-- `__init__`: sets `base` into the common configuration; when
`configFile` is true it reads the config file
(`quickUtils.readConfig` is not under src/ — its outcome, `FileNotFound`
or the two dictionaries read, is the oracle `readRes`) and runs
`checkConfig` on both dictionaries, returning early — leaving the object
without `commonConf` and `analysisConf` attributes, i.e. `none` — on
`FileNotFound` or `KeyError`.  Only on success are both attributes set. -/
def init (base : String) (configFile : Bool)
    (analysisConfig commonConfig : Dict)
    (readRes : Except Unit (Dict × Dict)) : Option QA × List Event :=
  let commonConfig := commonConfig.set "base" (Val.s base)
  if configFile then
    match readRes with
    | .error _ =>
      (none, [Event.logCritical "One or more needed files do not exist"])
    | .ok (commonRead, analysisRead) =>
      match checkConfig commonConfig commonRead with
      | .error _ => (none, [])
      | .ok commonConfig2 =>
        match checkConfig analysisConfig analysisRead with
        | .error _ => (none, [])
        | .ok analysisConfig2 =>
          (some ⟨commonConfig2, analysisConfig2⟩,
           [Event.logInfo "Created quickAnalysis object"])
  else
    (some ⟨commonConfig, analysisConfig⟩,
     [Event.logInfo "Created quickAnalysis object"])

/-- Calling `runSelect` on a possibly incompletely constructed object:
when the constructor returned early the attributes are missing and the
call fails (`AttributeError` in Python), which we model as `none`. -/
def runSelectObj (o : Option QA) (st : Apps) (run : Bool)
    (convtype : Int := -1) : Option (Apps × List Event) :=
  o.map (fun qa => runSelect qa st run convtype)

end quickAnalysis

/-- One cluster of short options, e.g. `-cm`: each character must be a
known option character (neither `c` nor `m` takes an argument), else
`getopt.error` is raised. -/
def parseCluster (optchars : List Char) : List Char → Except Unit (List (String × String))
  | [] => .ok []
  | c :: rest =>
    if c ∈ optchars then
      match parseCluster optchars rest with
      | .ok opts => .ok ((String.mk ['-', c], "") :: opts)
      | .error e => .error e
    else .error ()

/-- Modelled from the spec: Python's `getopt.getopt(args, shortopts)`
for argument-less short options — scans leading option arguments,
stops at the first non-option argument (or after `--`), and raises
`getopt.error` on an unknown option character. -/
def getopt (optchars : List Char) : List String → Except Unit (List (String × String) × List String)
  | [] => .ok ([], [])
  | a :: rest =>
    if a = "--" then .ok ([], rest)
    else if a.toList.take 1 = ['-'] ∧ a ≠ "-" then
      match parseCluster optchars (a.toList.drop 1) with
      | .error e => .error e
      | .ok opts =>
        match getopt optchars rest with
        | .error e => .error e
        | .ok (opts2, args) => .ok (opts ++ opts2, args)
    else .ok ([], a :: rest)

/-- What a `cli()` invocation ends up doing. -/
inductive CliOutcome where
  | usage
  | createConfig
  | modelMap (base : String)
  | makeXml (base : String)
  | analyze (bases : List String)
deriving DecidableEq

/-- The option loop of `cli()`: the first recognised option determines
the action (`BadUsage` becomes the usage message); unrecognised pairs
are skipped.  `sysArgv2` is `sys.argv[2]`, used by the `-M` and `-m`
branches. -/
def optLoop (args : List String) (sysArgv2 : String) :
    List (String × String) → Option CliOutcome
  | [] => none
  | (opt, _) :: rest =>
    if opt = "-c" then some .createConfig
    else if opt = "-M" then
      if args = [] then some .usage else some (.modelMap sysArgv2)
    else if opt = "-m" then
      if args = [] then some .usage else some (.makeXml sysArgv2)
    else optLoop args sysArgv2 rest

/-- `cli()` on `sys.argv[1:]`: getopt with option string `cm`; on
`getopt.error` or `BadUsage` the usage message is printed; with no
option, each remaining argument gets a full `runAll` analysis. -/
def cli (argv1 : List String) : CliOutcome :=
  match getopt ['c', 'm'] argv1 with
  | .error _ => .usage
  | .ok (opts, args) =>
    match optLoop args (argv1.getD 1 "") opts with
    | some o => o
    | none => if args = [] then .usage else .analyze args

section DictLemmas

/-- Looking up after `set`: the written key reads back the new value,
any other key is unchanged. -/
theorem Dict.get_set (d : Dict) (k k' : String) (v : Val) :
    (d.set k v).get k' = if k = k' then some v else d.get k' := by
  induction d with
  | nil => by_cases h : k = k' <;> simp [Dict.set, Dict.get, h]
  | cons p rest ih =>
    obtain ⟨k0, v0⟩ := p
    by_cases h0 : k0 = k
    · subst h0
      by_cases h1 : k0 = k' <;> simp [Dict.set, Dict.get, h1]
    · by_cases h1 : k0 = k'
      · subst h1
        have h2 : ¬ k = k0 := fun h => h0 h.symm
        simp [Dict.set, Dict.get, h0, h2]
      · simp [Dict.set, Dict.get, h0, h1, ih]

end DictLemmas

/-! Concrete fixtures for witnesses: a `quickAnalysis` object with base
`"a"` and the default configurations, and empty shared dictionaries. -/

def qa0 : QA := ⟨commonConfigDefault.set "base" (Val.s "a"), analysisConfigDefault⟩

def apps0 : Apps := ⟨[], [], [], [], [], []⟩

/-- The keys `runSelect` assigns in the `filter` dictionary. -/
def selectKeys : List String :=
  ["rad", "evclass", "infile", "outfile", "ra", "dec",
   "tmin", "tmax", "emin", "emax", "zmax", "convtype"]

/-- C5: `runSelect` assigns exactly the keys rad, evclass, infile,
outfile, ra, dec, tmin, tmax, emin, emax, zmax, convtype of the filter
dictionary from the analysis and common configuration (convtype from
its argument, default -1, the value `runAll` uses), leaving every other
key untouched; and `runLTCube` assigns the fixed values
`dcostheta = 0.025` and `binsz = 1` regardless of configuration. -/
theorem runSelect_runLTCube_parameters (qa : QA) (st : Apps) (run : Bool)
    (ct zm : Int) (k : String) (hk : k ∉ selectKeys) :
    ((quickAnalysis.runSelect qa st run ct).1.filter.get "rad" =
        some (qa.analysisConf.getV "rad") ∧
      (quickAnalysis.runSelect qa st run ct).1.filter.get "evclass" =
        some (qa.commonConf.getV "eventclass") ∧
      (quickAnalysis.runSelect qa st run ct).1.filter.get "infile" =
        some (Val.s ("@" ++ qa.commonConf.getS "base" ++ ".list")) ∧
      (quickAnalysis.runSelect qa st run ct).1.filter.get "outfile" =
        some (Val.s (qa.commonConf.getS "base" ++ "_filtered.fits")) ∧
      (quickAnalysis.runSelect qa st run ct).1.filter.get "ra" =
        some (qa.analysisConf.getV "ra") ∧
      (quickAnalysis.runSelect qa st run ct).1.filter.get "dec" =
        some (qa.analysisConf.getV "dec") ∧
      (quickAnalysis.runSelect qa st run ct).1.filter.get "tmin" =
        some (qa.analysisConf.getV "tmin") ∧
      (quickAnalysis.runSelect qa st run ct).1.filter.get "tmax" =
        some (qa.analysisConf.getV "tmax") ∧
      (quickAnalysis.runSelect qa st run ct).1.filter.get "emin" =
        some (qa.analysisConf.getV "emin") ∧
      (quickAnalysis.runSelect qa st run ct).1.filter.get "emax" =
        some (qa.analysisConf.getV "emax") ∧
      (quickAnalysis.runSelect qa st run ct).1.filter.get "zmax" =
        some (qa.analysisConf.getV "zmax") ∧
      (quickAnalysis.runSelect qa st run ct).1.filter.get "convtype" =
        some (Val.i ct)) ∧
    (quickAnalysis.runSelect qa st run).1.filter.get "convtype" =
      some (Val.i (-1)) ∧
    (quickAnalysis.runSelect qa st run ct).1.filter.get k = st.filter.get k ∧
    (quickAnalysis.runLTCube qa st run zm).1.expCube.get "dcostheta" =
      some (Val.q (25 / 1000)) ∧
    (quickAnalysis.runLTCube qa st run zm).1.expCube.get "binsz" =
      some (Val.i 1) := by
  simp only [selectKeys, List.mem_cons, List.mem_singleton] at hk
  push_neg at hk
  obtain ⟨n1, n2, n3, n4, n5, n6, n7, n8, n9, n10, n11, n12, -⟩ := hk
  refine ⟨?_, ?_, ?_, ?_, ?_⟩ <;>
    simp [quickAnalysis.runSelect, quickAnalysis.runLTCube, Dict.get_set,
      Ne.symm n1, Ne.symm n2, Ne.symm n3, Ne.symm n4, Ne.symm n5, Ne.symm n6,
      Ne.symm n7, Ne.symm n8, Ne.symm n9, Ne.symm n10, Ne.symm n11, Ne.symm n12]

/-- Witness for C5 at a concrete configuration and the key `chatter`. -/
theorem runSelect_runLTCube_parameters_witness :
    "chatter" ∉ selectKeys ∧
      (quickAnalysis.runSelect qa0 apps0 true 2).1.filter.get "rad" =
        some (qa0.analysisConf.getV "rad") := by
  have h : "chatter" ∉ selectKeys := by decide
  exact ⟨h, (runSelect_runLTCube_parameters qa0 apps0 true 2 180 "chatter" h).1.1⟩

/-- The keys `runCMAP` assigns in the shared `evtbin` dictionary. -/
def cmapKeys : List String :=
  ["evfile", "outfile", "algorithm", "nxpix", "nypix", "binsz",
   "coordsys", "xref", "yref", "axisrot", "proj"]

/-- C10: `runCMAP` assigns only the keys evfile, outfile, algorithm,
nxpix, nypix, binsz, coordsys, xref, yref, axisrot and proj of the
shared `evtbin` dictionary, leaving every other entry unchanged; in
particular after `runCCUBE` followed by `runCMAP` the energy-binning
keys ebinalg, emin, emax and enumbins still hold the values `runCCUBE`
set. -/
theorem runCMAP_frame (qa : QA) (st : Apps) (run : Bool) (bs : ℚ)
    (nb : Int) (k : String) (hk : k ∉ cmapKeys) :
    (quickAnalysis.runCMAP qa st run bs).1.evtbin.get k = st.evtbin.get k ∧
    ((quickAnalysis.runCMAP qa
        (quickAnalysis.runCCUBE qa st run bs nb).1 run bs).1.evtbin.get
          "ebinalg" = some (Val.s "LOG") ∧
      (quickAnalysis.runCMAP qa
        (quickAnalysis.runCCUBE qa st run bs nb).1 run bs).1.evtbin.get
          "emin" = some (qa.analysisConf.getV "emin") ∧
      (quickAnalysis.runCMAP qa
        (quickAnalysis.runCCUBE qa st run bs nb).1 run bs).1.evtbin.get
          "emax" = some (qa.analysisConf.getV "emax") ∧
      (quickAnalysis.runCMAP qa
        (quickAnalysis.runCCUBE qa st run bs nb).1 run bs).1.evtbin.get
          "enumbins" = some (Val.i nb)) := by
  simp only [cmapKeys, List.mem_cons, List.mem_singleton] at hk
  push_neg at hk
  obtain ⟨n1, n2, n3, n4, n5, n6, n7, n8, n9, n10, n11, -⟩ := hk
  constructor
  · simp [quickAnalysis.runCMAP, Dict.get_set,
      Ne.symm n1, Ne.symm n2, Ne.symm n3, Ne.symm n4, Ne.symm n5, Ne.symm n6,
      Ne.symm n7, Ne.symm n8, Ne.symm n9, Ne.symm n10, Ne.symm n11]
  · simp [quickAnalysis.runCMAP, quickAnalysis.runCCUBE, Dict.get_set]

/-- Witness for C10 at a concrete configuration and the key `emin`. -/
theorem runCMAP_frame_witness :
    "emin" ∉ cmapKeys ∧
      (quickAnalysis.runCMAP qa0 apps0 true (1 / 10)).1.evtbin.get "emin" =
        apps0.evtbin.get "emin" := by
  have h : "emin" ∉ cmapKeys := by decide
  exact ⟨h, (runCMAP_frame qa0 apps0 true (1 / 10) 30 "emin" h).1⟩

/-- C6: every file path is the user-supplied base name `b` with a fixed
suffix: the event-selection input `"@" ++ b ++ ".list"`, the filtered
output `b ++ "_filtered.fits"`, the GTI output
`b ++ "_filtered_gti.fits"`, the spacecraft file `b ++ "_SC.fits"`, the
livetime cube `b ++ "_ltcube.fits"`, the exposure map
`b ++ "_expMap.fits"`, the counts cube `b ++ "_CCUBE.fits"`, the counts
map `b ++ "_CMAP.fits"`, the binned exposure map
`b ++ "_BinnedExpMap.fits"`, the model `b ++ "_model.xml"` and the
source maps `b ++ "_srcMaps.fits"`. -/
theorem file_paths_from_base (qa : QA) (st : Apps) (run : Bool) (b : String)
    (xmlOk : Bool) (hb : qa.commonConf.get "base" = some (Val.s b)) :
    (quickAnalysis.runSelect qa st run).1.filter.get "infile" =
      some (Val.s ("@" ++ b ++ ".list")) ∧
    (quickAnalysis.runSelect qa st run).1.filter.get "outfile" =
      some (Val.s (b ++ "_filtered.fits")) ∧
    (quickAnalysis.runGTI qa st run).1.maketime.get "scfile" =
      some (Val.s (b ++ "_SC.fits")) ∧
    (quickAnalysis.runGTI qa st run).1.maketime.get "evfile" =
      some (Val.s (b ++ "_filtered.fits")) ∧
    (quickAnalysis.runGTI qa st run).1.maketime.get "outfile" =
      some (Val.s (b ++ "_filtered_gti.fits")) ∧
    (quickAnalysis.runLTCube qa st run).1.expCube.get "evfile" =
      some (Val.s (b ++ "_filtered_gti.fits")) ∧
    (quickAnalysis.runLTCube qa st run).1.expCube.get "outfile" =
      some (Val.s (b ++ "_ltcube.fits")) ∧
    (quickAnalysis.runExpMap qa st run).1.expMap.get "outfile" =
      some (Val.s (b ++ "_expMap.fits")) ∧
    (quickAnalysis.runCCUBE qa st run).1.evtbin.get "outfile" =
      some (Val.s (b ++ "_CCUBE.fits")) ∧
    (quickAnalysis.runCMAP qa st run).1.evtbin.get "outfile" =
      some (Val.s (b ++ "_CMAP.fits")) ∧
    (quickAnalysis.expCubeArgs qa (1 / 10) 30).get "outfile" =
      some (Val.s (b ++ "_BinnedExpMap.fits")) ∧
    (quickAnalysis.runSrcMaps (fun _ => true) xmlOk qa st run).1.srcMaps.get
      "srcmdl" = some (Val.s (b ++ "_model.xml")) ∧
    (quickAnalysis.runSrcMaps (fun _ => true) xmlOk qa st run).1.srcMaps.get
      "outfile" = some (Val.s (b ++ "_srcMaps.fits")) ∧
    (quickAnalysis.runSrcMaps (fun _ => true) xmlOk qa st run).1.srcMaps.get
      "cmap" = some (Val.s (b ++ "_CCUBE.fits")) ∧
    (quickAnalysis.runSrcMaps (fun _ => true) xmlOk qa st run).1.srcMaps.get
      "bexpmap" = some (Val.s (b ++ "_BinnedExpMap.fits")) ∧
    (quickAnalysis.runSrcMaps (fun _ => true) xmlOk qa st run).1.srcMaps.get
      "expcube" = some (Val.s (b ++ "_ltcube.fits")) := by
  have hbs : qa.commonConf.getS "base" = b := by simp [Dict.getS, hb]
  simp [quickAnalysis.runSelect, quickAnalysis.runGTI, quickAnalysis.runLTCube,
    quickAnalysis.runExpMap, quickAnalysis.runCCUBE, quickAnalysis.runCMAP,
    quickAnalysis.expCubeArgs, quickAnalysis.runSrcMaps, checkForFiles,
    Dict.get_set, Dict.get, hbs]

/-- Witness for C6 at the concrete object `qa0` with base `"a"`. -/
theorem file_paths_from_base_witness :
    qa0.commonConf.get "base" = some (Val.s "a") ∧
      (quickAnalysis.runSelect qa0 apps0 true).1.filter.get "infile" =
        some (Val.s "@a.list") := by
  have hb : qa0.commonConf.get "base" = some (Val.s "a") := by decide
  exact ⟨hb, (file_paths_from_base qa0 apps0 true "a" true hb).1⟩

/-- The four files `runSrcMaps` requires, for base name `b`. -/
def srcMapsFiles (b : String) : List String :=
  [b ++ "_CCUBE.fits", b ++ "_ltcube.fits", b ++ "_BinnedExpMap.fits",
   b ++ "_SC.fits"]

/-- C7: `runSrcMaps` checks the four required files before invoking
gtsrcmaps; when any is missing it returns with the whole shared state —
in particular the `srcMaps` dictionary — unchanged and no external tool
invoked, the file check being in the trace. -/
theorem runSrcMaps_missing_file (fs : FS) (xmlOk : Bool) (qa : QA)
    (st : Apps) (run : Bool)
    (h : checkForFiles fs (srcMapsFiles (qa.commonConf.getS "base")) = false) :
    (quickAnalysis.runSrcMaps fs xmlOk qa st run).1 = st ∧
    (quickAnalysis.runSrcMaps fs xmlOk qa st run).1.srcMaps = st.srcMaps ∧
    toolSeq (quickAnalysis.runSrcMaps fs xmlOk qa st run).2 = [] ∧
    Event.checkFiles (srcMapsFiles (qa.commonConf.getS "base")) ∈
      (quickAnalysis.runSrcMaps fs xmlOk qa st run).2 := by
  simp only [srcMapsFiles] at h
  cases xmlOk <;>
    simp [quickAnalysis.runSrcMaps, quickAnalysis.generateXMLmodelM, h,
      toolSeq, Event.toolOf, srcMapsFiles]

/-- Witness for C7: no file exists at all. -/
theorem runSrcMaps_missing_file_witness :
    checkForFiles (fun _ => false) (srcMapsFiles (qa0.commonConf.getS "base")) =
        false ∧
      (quickAnalysis.runSrcMaps (fun _ => false) true qa0 apps0 true).1 =
        apps0 := by
  have h : checkForFiles (fun _ => false)
      (srcMapsFiles (qa0.commonConf.getS "base")) = false := by decide
  exact ⟨h, (runSrcMaps_missing_file (fun _ => false) true qa0 apps0 true h).1⟩

/-- C2: `runAll` checks `<base>.list` and `<base>_SC.fits` first; when
either is missing it logs a critical message and returns before
invoking any external tool, leaving the shared state unchanged. -/
theorem runAll_missing_file (fs : FS) (xmlOk : Bool) (qa : QA) (st : Apps)
    (run : Bool) (b : String)
    (hb : qa.commonConf.get "base" = some (Val.s b))
    (h : checkForFiles fs [b ++ ".list", b ++ "_SC.fits"] = false) :
    quickAnalysis.runAll fs xmlOk qa st run =
      (st, [Event.logInfo "***Checking for files***",
            Event.checkFiles [b ++ ".list", b ++ "_SC.fits"],
            Event.logCritical "One or more needed files do not exist"]) ∧
    toolSeq (quickAnalysis.runAll fs xmlOk qa st run).2 = [] := by
  have hbs : qa.commonConf.getS "base" = b := by simp [Dict.getS, hb]
  refine ⟨?_, ?_⟩ <;>
    simp [quickAnalysis.runAll, hbs, h, toolSeq, Event.toolOf]

/-- Witness for C2: no file exists at all. -/
theorem runAll_missing_file_witness :
    qa0.commonConf.get "base" = some (Val.s "a") ∧
      checkForFiles (fun _ => false) ["a.list", "a_SC.fits"] = false ∧
      toolSeq (quickAnalysis.runAll (fun _ => false) true qa0 apps0 true).2 =
        [] := by
  have hb : qa0.commonConf.get "base" = some (Val.s "a") := by decide
  have h : checkForFiles (fun _ => false) ["a.list", "a_SC.fits"] = false := by
    decide
  exact ⟨hb, h,
    (runAll_missing_file (fun _ => false) true qa0 apps0 true "a" hb h).2⟩

/-- C1: with the two start files present, `runAll` invokes the external
binaries in the fixed order gtselect, gtmktime, gtltcube and then —
when `commonConf['binned']` is truthy and the gtsrcmaps inputs exist —
gtbin, gtexpcube2, gtsrcmaps, otherwise only gtexpmap. -/
theorem runAll_tool_sequence (fs : FS) (xmlOk : Bool) (qa : QA) (st : Apps)
    (b : String) (hb : qa.commonConf.get "base" = some (Val.s b))
    (h1 : fs (b ++ ".list") = true) (h2 : fs (b ++ "_SC.fits") = true) :
    ((qa.commonConf.getV "binned").truthy = false →
      toolSeq (quickAnalysis.runAll fs xmlOk qa st true).2 =
        ["gtselect", "gtmktime", "gtltcube", "gtexpmap"]) ∧
    ((qa.commonConf.getV "binned").truthy = true →
      fs (b ++ "_CCUBE.fits") = true → fs (b ++ "_ltcube.fits") = true →
      fs (b ++ "_BinnedExpMap.fits") = true →
      toolSeq (quickAnalysis.runAll fs xmlOk qa st true).2 =
        ["gtselect", "gtmktime", "gtltcube", "gtbin", "gtexpcube2",
         "gtsrcmaps"]) := by
  have hbs : qa.commonConf.getS "base" = b := by simp [Dict.getS, hb]
  constructor
  · intro hbin
    simp [quickAnalysis.runAll, hbs, hbin, checkForFiles, h1, h2,
      quickAnalysis.runSelect, quickAnalysis.runGTI, quickAnalysis.runLTCube,
      quickAnalysis.runExpMap, runCommand, toolSeq, Event.toolOf]
  · intro hbin hc hl hbe
    cases xmlOk <;>
      simp [quickAnalysis.runAll, hbs, hbin, checkForFiles, h1, h2, hc, hl,
        hbe, quickAnalysis.runSelect, quickAnalysis.runGTI,
        quickAnalysis.runLTCube, quickAnalysis.runCCUBE,
        quickAnalysis.runExpCube, quickAnalysis.runSrcMaps,
        quickAnalysis.generateXMLmodelM, runCommand, toolSeq, Event.toolOf]

/-- Witness for C1: all files exist, binned configuration. -/
theorem runAll_tool_sequence_witness :
    ((⟨commonConfigDefault.set "binned" (Val.b true), analysisConfigDefault⟩ :
        QA).commonConf.getV "binned").truthy = true ∧
      toolSeq (quickAnalysis.runAll (fun _ => true) true
        ⟨commonConfigDefault.set "binned" (Val.b true), analysisConfigDefault⟩
        apps0 true).2 =
        ["gtselect", "gtmktime", "gtltcube", "gtbin", "gtexpcube2",
         "gtsrcmaps"] := by
  have hb : (⟨commonConfigDefault.set "binned" (Val.b true),
      analysisConfigDefault⟩ : QA).commonConf.get "base" =
      some (Val.s "MySource") := by decide
  refine ⟨by decide, (runAll_tool_sequence (fun _ => true) true _ apps0
    "MySource" hb rfl rfl).2 (by decide) rfl rfl rfl⟩

/-- C3 counterexample: a `runSrcMaps` call with the required files
missing issues zero external commands, not exactly one, and it performs
file-existence checks beyond assigning parameters. -/
theorem runSrcMaps_not_single_invocation :
    toolSeq (quickAnalysis.runSrcMaps (fun _ => false) true qa0 apps0
        true).2 = [] ∧
      (toolSeq (quickAnalysis.runSrcMaps (fun _ => false) true qa0 apps0
        true).2).length ≠ 1 ∧
      Event.checkFiles (srcMapsFiles "a") ∈
        (quickAnalysis.runSrcMaps (fun _ => false) true qa0 apps0 true).2 := by
  decide

/-- C3 amended: each of `runSelect`, `runGTI`, `runLTCube`, `runExpMap`,
`runCCUBE`, `runCMAP` and `runExpCube` issues exactly one external
command per call (when actually running, `run = True`) and does nothing
beyond assigning parameters; `runSrcMaps` additionally generates an XML
model and checks the four required files, issuing one command when they
all exist and none otherwise. -/
theorem run_methods_single_invocation (qa : QA) (st : Apps) (ct zm : Int)
    (bs : ℚ) (nb : Int) (fs : FS) (xmlOk : Bool) :
    toolSeq (quickAnalysis.runSelect qa st true ct).2 = ["gtselect"] ∧
    toolSeq (quickAnalysis.runGTI qa st true).2 = ["gtmktime"] ∧
    toolSeq (quickAnalysis.runLTCube qa st true zm).2 = ["gtltcube"] ∧
    toolSeq (quickAnalysis.runExpMap qa st true).2 = ["gtexpmap"] ∧
    toolSeq (quickAnalysis.runCCUBE qa st true bs nb).2 = ["gtbin"] ∧
    toolSeq (quickAnalysis.runCMAP qa st true bs).2 = ["gtbin"] ∧
    toolSeq (quickAnalysis.runExpCube qa st true bs nb).2 = ["gtexpcube2"] ∧
    toolSeq (quickAnalysis.runSrcMaps fs xmlOk qa st true).2 =
      (if checkForFiles fs (srcMapsFiles (qa.commonConf.getS "base")) then
        ["gtsrcmaps"] else []) := by
  refine ⟨?_, ?_, ?_, ?_, ?_, ?_, ?_, ?_⟩ <;>
    try simp [quickAnalysis.runSelect, quickAnalysis.runGTI,
      quickAnalysis.runLTCube, quickAnalysis.runExpMap,
      quickAnalysis.runCCUBE, quickAnalysis.runCMAP,
      quickAnalysis.runExpCube, runCommand, toolSeq, Event.toolOf]
  rcases Bool.eq_false_or_eq_true
      (checkForFiles fs (srcMapsFiles (qa.commonConf.getS "base"))) with h | h <;>
    simp only [srcMapsFiles] at h <;>
    cases xmlOk <;>
      simp [quickAnalysis.runSrcMaps, quickAnalysis.generateXMLmodelM,
        srcMapsFiles, runCommand, toolSeq, Event.toolOf, h]

/-- C4 counterexample: `runExpMap` does not forward the configured
radius unchanged: with the default configuration (`rad = 10`) the
`srcrad` parameter handed to gtexpmap is `20.`, not the configuration
value. -/
theorem runExpMap_srcrad_not_forwarded :
    (quickAnalysis.runExpMap qa0 apps0 true).1.expMap.get "srcrad" ≠
      some (qa0.analysisConf.getV "rad") := by decide

/-- C4 amended: configuration values are forwarded into the external
tools' parameter sets unchanged where they appear directly (`irfs` in
runExpMap; `ra`, `dec`, `emin`, `emax` in runCCUBE), but derived
parameters are computed from them rather than forwarded: runExpMap sets
`srcrad` to `float(rad) + 10` and runCCUBE sets the pixel counts to
`NumberOfPixels(float(rad), bin_size)`. -/
theorem config_forwarding (qa : QA) (st : Apps) (run : Bool) (bs : ℚ)
    (nb : Int) :
    (quickAnalysis.runExpMap qa st run).1.expMap.get "irfs" =
      some (qa.commonConf.getV "irfs") ∧
    (quickAnalysis.runExpMap qa st run).1.expMap.get "srcrad" =
      some (Val.q ((qa.analysisConf.getV "rad").toQ + 10)) ∧
    (quickAnalysis.runCCUBE qa st run bs nb).1.evtbin.get "xref" =
      some (qa.analysisConf.getV "ra") ∧
    (quickAnalysis.runCCUBE qa st run bs nb).1.evtbin.get "yref" =
      some (qa.analysisConf.getV "dec") ∧
    (quickAnalysis.runCCUBE qa st run bs nb).1.evtbin.get "emin" =
      some (qa.analysisConf.getV "emin") ∧
    (quickAnalysis.runCCUBE qa st run bs nb).1.evtbin.get "emax" =
      some (qa.analysisConf.getV "emax") ∧
    (quickAnalysis.runCCUBE qa st run bs nb).1.evtbin.get "nxpix" =
      some (Val.i (NumberOfPixels (qa.analysisConf.getV "rad").toQ bs)) := by
  simp [quickAnalysis.runExpMap, quickAnalysis.runCCUBE, Dict.get_set]

/-- Every option parsed out of a cluster against the option string `cm`
is `-c` or `-m`. -/
theorem parseCluster_cm (cs : List Char) (opts : List (String × String))
    (h : parseCluster ['c', 'm'] cs = .ok opts) :
    ∀ p ∈ opts, p.1 = "-c" ∨ p.1 = "-m" := by
  induction cs generalizing opts with
  | nil =>
    simp only [parseCluster, Except.ok.injEq] at h
    subst h; simp
  | cons c rest ih =>
    unfold parseCluster at h
    by_cases hc : c ∈ ['c', 'm']
    · rw [if_pos hc] at h
      cases hrec : parseCluster ['c', 'm'] rest with
      | error e => rw [hrec] at h; cases h
      | ok opts2 =>
        rw [hrec] at h
        simp only [Except.ok.injEq] at h
        subst h
        intro p hp
        rcases List.mem_cons.mp hp with hp | hp
        · subst hp
          rcases List.mem_cons.mp hc with hc | hc
          · subst hc; left; rfl
          · simp only [List.mem_singleton] at hc
            subst hc; right; rfl
        · exact ih opts2 hrec p hp
    · rw [if_neg hc] at h; cases h

/-- Every option `getopt` parses against the option string `cm` is `-c`
or `-m`; in particular `-M` is never among them. -/
theorem getopt_cm_opts (argv : List String) :
    ∀ opts args, getopt ['c', 'm'] argv = .ok (opts, args) →
      ∀ p ∈ opts, p.1 = "-c" ∨ p.1 = "-m" := by
  induction argv with
  | nil =>
    intro opts args h
    simp only [getopt, Except.ok.injEq, Prod.mk.injEq] at h
    obtain ⟨h1, -⟩ := h
    subst h1; simp
  | cons a rest ih =>
    intro opts args h
    unfold getopt at h
    by_cases h1 : a = "--"
    · rw [if_pos h1] at h
      simp only [Except.ok.injEq, Prod.mk.injEq] at h
      obtain ⟨h2, -⟩ := h
      subst h2; simp
    · rw [if_neg h1] at h
      by_cases h2 : a.toList.take 1 = ['-'] ∧ a ≠ "-"
      · rw [if_pos h2] at h
        cases hpc : parseCluster ['c', 'm'] (a.toList.drop 1) with
        | error e => rw [hpc] at h; cases h
        | ok opts1 =>
          rw [hpc] at h
          cases hgo : getopt ['c', 'm'] rest with
          | error e => rw [hgo] at h; cases h
          | ok pr =>
            obtain ⟨opts2, args2⟩ := pr
            rw [hgo] at h
            simp only [Except.ok.injEq, Prod.mk.injEq] at h
            obtain ⟨h3, -⟩ := h
            subst h3
            intro p hp
            rcases List.mem_append.mp hp with hp | hp
            · exact parseCluster_cm _ opts1 hpc p hp
            · exact ih opts2 args2 hgo p hp
      · rw [if_neg h2] at h
        simp only [Except.ok.injEq, Prod.mk.injEq] at h
        obtain ⟨h3, -⟩ := h
        subst h3; simp

/-- The option loop of `cli` never selects the model-map action when
every parsed option is `-c` or `-m`. -/
theorem optLoop_no_modelMap (args : List String) (s2 : String)
    (opts : List (String × String))
    (hopts : ∀ p ∈ opts, p.1 = "-c" ∨ p.1 = "-m") (b : String) :
    optLoop args s2 opts ≠ some (CliOutcome.modelMap b) := by
  induction opts with
  | nil => simp [optLoop]
  | cons p rest ih =>
    obtain ⟨opt, v⟩ := p
    have hp := hopts (opt, v) (List.mem_cons_self _ _)
    have hrest : ∀ p ∈ rest, p.1 = "-c" ∨ p.1 = "-m" :=
      fun p hp => hopts p (List.mem_cons_of_mem _ hp)
    unfold optLoop
    rcases hp with hp | hp <;> simp only at hp <;> subst hp
    · simp
    · by_cases hargs : args = [] <;> simp [hargs]

/-- C8 counterexample: `['b', '-M']` contains `-M`, yet getopt stops at
the non-option argument `b` without raising, no usage message is
printed, and `cli` analyses both arguments as base names. -/
theorem cli_M_after_argument :
    cli ["b", "-M"] = CliOutcome.analyze ["b", "-M"] ∧
      cli ["b", "-M"] ≠ CliOutcome.usage := by decide

/-- C8 amended: the `-M` branch of `cli` is unreachable — with option
string `cm` no parsed option is ever `-M`, so no argument vector makes
`cli` produce the model-map action — and any argument vector in which
`-M` appears in option position (in particular first) makes getopt
raise an error and the usage message print; `-M` after a non-option
argument is instead consumed as an ordinary base name. -/
theorem cli_modelMap_unreachable (argv1 : List String) :
    (∀ b, cli argv1 ≠ CliOutcome.modelMap b) ∧
    cli ("-M" :: argv1) = CliOutcome.usage := by
  constructor
  · intro b
    unfold cli
    cases hgo : getopt ['c', 'm'] argv1 with
    | error e => simp
    | ok pr =>
      obtain ⟨opts, args⟩ := pr
      have hopts := getopt_cm_opts argv1 opts args hgo
      dsimp only
      cases hol : optLoop args (argv1.getD 1 "") opts with
      | none =>
        by_cases hargs : args = [] <;> simp [hargs]
      | some o =>
        dsimp only
        intro hcontra
        exact optLoop_no_modelMap args (argv1.getD 1 "") opts hopts b
          (hcontra ▸ hol)
  · have herr : getopt ['c', 'm'] ("-M" :: argv1) = .error () := rfl
    unfold cli
    rw [herr]

/-- C9: with `configFile = True`, the constructor returns early when
the config read raises `FileNotFound` or `checkConfig` of either
dictionary raises `KeyError`, leaving the object without `commonConf`
and `analysisConf` attributes (`none`), on which every run-method call
fails; only when no error occurs are both attributes set (to the
checked dictionaries). -/
theorem init_attributes (base : String) (aConf cConf : Dict)
    (readRes : Except Unit (Dict × Dict)) :
    (readRes = .error () →
      (quickAnalysis.init base true aConf cConf readRes).1 = none) ∧
    (∀ cr ar, readRes = .ok (cr, ar) →
      checkConfig (cConf.set "base" (Val.s base)) cr = .error () →
      (quickAnalysis.init base true aConf cConf readRes).1 = none) ∧
    (∀ cr ar cc, readRes = .ok (cr, ar) →
      checkConfig (cConf.set "base" (Val.s base)) cr = .ok cc →
      checkConfig aConf ar = .error () →
      (quickAnalysis.init base true aConf cConf readRes).1 = none) ∧
    (∀ cr ar cc ac, readRes = .ok (cr, ar) →
      checkConfig (cConf.set "base" (Val.s base)) cr = .ok cc →
      checkConfig aConf ar = .ok ac →
      (quickAnalysis.init base true aConf cConf readRes).1 = some ⟨cc, ac⟩) ∧
    (∀ st run ct,
      quickAnalysis.runSelectObj none st run ct = none) := by
  refine ⟨?_, ?_, ?_, ?_, ?_⟩
  · intro h; subst h; rfl
  · intro cr ar h1 h2; subst h1
    simp [quickAnalysis.init, h2]
  · intro cr ar cc h1 h2 h3; subst h1
    simp [quickAnalysis.init, h2, h3]
  · intro cr ar cc ac h1 h2 h3; subst h1
    simp [quickAnalysis.init, h2, h3]
  · intro st run ct; rfl

/-- Witness for C9: a failed config read leaves the attributes unset. -/
theorem init_attributes_witness :
    (quickAnalysis.init "a" true analysisConfigDefault commonConfigDefault
      (.error ())).1 = none :=
  (init_attributes "a" analysisConfigDefault commonConfigDefault
    (.error ())).1 rfl
